import Mathlib

/-!
Verification of the wearable telemetry pipeline of `health-counselor-demo`:
the anomaly detector (`src/wearable_listener/anomaly_detector.py`), the goal
tracker (`src/wearable_listener/goal_tracker.py`) and the alert fan-out queue
(`server/dashboard_api/services/alert_queue.py`), shallowly embedded in Lean.

Modelling conventions:
* Python floats are modelled as exact rationals (`ℚ`); timestamps as integer
  seconds (`ℤ`).  Wall-clock reads (`datetime.now()`, `date.today()`) are
  passed in as explicit `now` / `today` parameters.
* `statistics.stdev` returns the square root of the sample variance.  The
  embedding tracks the exact variance (the square of the source's `std_dev`)
  and translates every comparison the source performs on `std_dev` into the
  equivalent exact comparison on the variance (see `sigmaGE`).
* Formatted message strings are modelled by injective message ADTs carrying
  the data interpolated into the string.
-/

set_option linter.unusedVariables false

namespace HealthDemo

/-- Keep the last `n` elements of a list (the effect of a `deque(maxlen=n)`
after all appends, and of the `[-count:]` slices the source uses). -/
def lastN (n : ℕ) (l : List α) : List α := l.drop (l.length - n)

/-- Append to a `deque(maxlen=cap)`: the new element goes last, the oldest
elements beyond `cap` are evicted from the front. -/
def appendBounded (cap : ℕ) (l : List α) (a : α) : List α := lastN cap (l ++ [a])

/-- Insert/overwrite a key in an insertion-ordered dict (Python `d[k] = v`):
an existing key keeps its position, a new key goes to the back. -/
def dictInsert (k : String) (v : α) : List (String × α) → List (String × α)
  | [] => [(k, v)]
  | (k2, v2) :: rest => if k = k2 then (k, v) :: rest else (k2, v2) :: dictInsert k v rest

/-- Severity levels used by `AnomalyResult` and `AutomationAlert`. -/
inductive Severity where
  | info
  | warning
  | critical
deriving DecidableEq, Repr

/-- The source's `deviation_sigma` float: either `float('inf')` (absolute
critical thresholds) or a finite value `|value - mean| / std_dev`; a finite
value is carried as its exact square `(value - mean)^2 / variance`. -/
inductive DevSigma where
  | inf
  | sq (q : ℚ)
deriving DecidableEq, Repr

/-- The message f-strings of `check_anomaly`, as an ADT carrying the
interpolated data. -/
inductive AnomalyMessage where
  | criticalHighMsg (data_type : String) (value threshold : ℚ)
  | criticalLowMsg (data_type : String) (value threshold : ℚ)
  | insufficientBaseline (data_type : String) (got need : ℕ)
  | noVariance (data_type : String)
  | anomalyHighLow (data_type : String) (isHigh : Bool)
  | withinNormal (data_type : String)
deriving DecidableEq, Repr

/-- `AnomalyResult` (anomaly_detector.py, lines 19-45).  `baseline_std_sq` is
the square of the source's `baseline_std`; `to_dict` serialization omitted. -/
structure AnomalyResult where
  detected : Bool
  data_type : String
  value : ℚ
  baseline_mean : ℚ
  baseline_std_sq : ℚ
  deviation_sigma : DevSigma
  severity : Severity
  message : AnomalyMessage
  timestamp : ℤ
deriving DecidableEq, Repr

/-- `RollingStats` (anomaly_detector.py, lines 48-57).  `var` is the square of
the source's `std_dev`; `min_val`/`max_val` are omitted (no claim and no
branch of `check_anomaly` consults them). -/
structure RollingStats where
  readings : List (ℤ × ℚ)
  mean : ℚ := 0
  var : ℚ := 0
  count : ℕ := 0
deriving DecidableEq, Repr

/-- One entry of `AnomalyDetector.DEFAULT_THRESHOLDS`; absent dict keys are
`none` (Python `dict.get` with default). -/
structure Thresholds where
  sigma_threshold : Option ℚ := none
  critical_high : Option ℚ := none
  critical_low : Option ℚ := none
  min_readings : Option ℕ := none
deriving DecidableEq, Repr

/-- `AnomalyDetector.DEFAULT_THRESHOLDS` (anomaly_detector.py, lines 75-100);
unknown data types get the empty dict. -/
def DEFAULT_THRESHOLDS : String → Thresholds
  | "heart_rate" => { sigma_threshold := some 2, critical_high := some 120,
                      critical_low := some 40, min_readings := some 10 }
  | "steps" => { sigma_threshold := some (5/2), min_readings := some 5 }
  | "sleep" => { sigma_threshold := some 2, critical_low := some 4, min_readings := some 7 }
  | "stress" => { sigma_threshold := some 2, critical_high := some 9, min_readings := some 5 }
  | "workout" => { sigma_threshold := some (5/2), min_readings := some 3 }
  | _ => {}

/-- `AnomalyDetector` state (anomaly_detector.py, lines 102-129): rolling
stats per data type plus the bounded anomaly history (`deque(maxlen=100)`). -/
structure AnomalyDetector where
  windowSecs : ℤ := 24 * 3600
  default_sigma : ℚ := 2
  default_min_readings : ℕ := 5
  stats : List (String × RollingStats) := []
  history : List AnomalyResult := []
deriving DecidableEq, Repr

/-- A freshly constructed `AnomalyDetector()` with default configuration. -/
def AnomalyDetector.init : AnomalyDetector := {}

/-- `_prune_old_readings` (lines 170-177): pop from the front while older than
`now - window`. -/
def pruneOld (windowSecs now : ℤ) (l : List (ℤ × ℚ)) : List (ℤ × ℚ) :=
  l.dropWhile (fun r => decide (r.1 < now - windowSecs))

/-- `_recalculate_stats` (lines 179-199): count, mean, and sample variance
(the square of `statistics.stdev`, which needs at least 2 readings, else 0). -/
def recalcStats (readings : List (ℤ × ℚ)) : RollingStats :=
  if readings = [] then { readings := readings }
  else
    let values := readings.map Prod.snd
    let n := values.length
    let mean : ℚ := values.sum / (n : ℚ)
    let var : ℚ :=
      if 2 ≤ n then (values.map (fun v => (v - mean) ^ 2)).sum / (((n - 1 : ℕ) : ℚ)) else 0
    { readings := readings, mean := mean, var := var, count := n }

/-- `add_reading` (lines 131-168): append to the per-type window
(`deque(maxlen=1000)`), prune readings older than the window, recompute
statistics. -/
def add_reading (d : AnomalyDetector) (data_type : String) (value : ℚ)
    (ts now : ℤ) : AnomalyDetector :=
  let old := (List.lookup data_type d.stats).getD { readings := [] }
  let appended := appendBounded 1000 old.readings (ts, value)
  let pruned := pruneOld d.windowSecs now appended
  { d with stats := dictInsert data_type (recalcStats pruned) d.stats }

/-- Decide `|diff| / sqrt var ≥ t` exactly, for `var > 0`: when `t ≤ 0` the
left side is nonnegative so the comparison holds; when `t > 0` both sides are
nonnegative and squaring is an equivalence.  This is how the embedding
evaluates the source's float comparisons `deviation_sigma >= threshold`. -/
def sigmaGE (diff t var : ℚ) : Bool :=
  decide (t ≤ 0) || decide (t ^ 2 * var ≤ diff ^ 2)

/-- `check_anomaly` (lines 201-336).  Returns the result and the updated
detector (the statistical detected branch appends to the anomaly history;
every other branch leaves the state unchanged). -/
def check_anomaly (d : AnomalyDetector) (data_type : String) (value : ℚ)
    (ts : ℤ) : AnomalyResult × AnomalyDetector :=
  let th := DEFAULT_THRESHOLDS data_type
  let sigmaT := th.sigma_threshold.getD d.default_sigma
  let minR := th.min_readings.getD d.default_min_readings
  let stats? := List.lookup data_type d.stats
  let bmean := ((stats?.map RollingStats.mean).getD 0)
  let bvar := ((stats?.map RollingStats.var).getD 0)
  match th.critical_high.filter (fun ch => decide (ch ≤ value)) with
  | some ch =>
      (⟨true, data_type, value, bmean, bvar, .inf, .critical,
        .criticalHighMsg data_type value ch, ts⟩, d)
  | none =>
  match th.critical_low.filter (fun cl => decide (value ≤ cl)) with
  | some cl =>
      (⟨true, data_type, value, bmean, bvar, .inf, .critical,
        .criticalLowMsg data_type value cl, ts⟩, d)
  | none =>
  match stats? with
  | none =>
      (⟨false, data_type, value, 0, 0, .sq 0, .info,
        .insufficientBaseline data_type 0 minR, ts⟩, d)
  | some stats =>
  if stats.count < minR then
      (⟨false, data_type, value, stats.mean, stats.var, .sq 0, .info,
        .insufficientBaseline data_type stats.count minR, ts⟩, d)
  else if stats.var = 0 then
      (⟨false, data_type, value, stats.mean, 0, .sq 0, .info,
        .noVariance data_type, ts⟩, d)
  else
    let diff := value - stats.mean
    if sigmaGE diff sigmaT stats.var then
      let sev := if sigmaGE diff (sigmaT * (3/2)) stats.var then Severity.warning
                 else Severity.info
      let r : AnomalyResult :=
        ⟨true, data_type, value, stats.mean, stats.var, .sq (diff ^ 2 / stats.var),
          sev, .anomalyHighLow data_type (decide (stats.mean < value)), ts⟩
      (r, { d with history := appendBounded 100 d.history r })
    else
      (⟨false, data_type, value, stats.mean, stats.var, .sq (diff ^ 2 / stats.var),
        .info, .withinNormal data_type, ts⟩, d)

/-- Python's `l[-count:]` slice: for `count = 0` the index `-0` is `0`, so
the slice is the whole list; for `count ≥ 1` it is the last `count`
elements. -/
def sliceLast (count : ℕ) (l : List α) : List α :=
  if count = 0 then l else lastN count l

/-- `get_anomaly_history` (lines 377-380): the `[-count:]` slice of the
anomaly history (`to_dict` serialization omitted). -/
def get_anomaly_history (d : AnomalyDetector) (count : ℕ) : List AnomalyResult :=
  sliceLast count d.history

/-- `check_and_track_anomaly` (lines 414-436): add the reading to the rolling
stats first, then check the same value for an anomaly. -/
def check_and_track_anomaly (d : AnomalyDetector) (data_type : String)
    (value : ℚ) (ts now : ℤ) : (Bool × Option AnomalyResult) × AnomalyDetector :=
  let d1 := add_reading d data_type value ts now
  let rd := check_anomaly d1 data_type value ts
  ((rd.1.detected, if rd.1.detected then some rd.1 else none), rd.2)

/-- The ordering the spec's pipeline description asserts (spec §4.4 step 2:
"the new value is never compared against a baseline that already includes
itself"): check against the baseline of the prior samples, then record the
reading.  Kept for comparison with `check_and_track_anomaly`. -/
def specCheckThenRecord (d : AnomalyDetector) (data_type : String)
    (value : ℚ) (ts now : ℤ) : (Bool × Option AnomalyResult) × AnomalyDetector :=
  let rd := check_anomaly d data_type value ts
  let d1 := add_reading rd.2 data_type value ts now
  ((rd.1.detected, if rd.1.detected then some rd.1 else none), d1)

/-- `GoalStatus` (goal_tracker.py, lines 17-24). -/
inductive GoalStatus where
  | not_started
  | in_progress
  | at_risk
  | achieved
  | missed
deriving DecidableEq, Repr

/-- `GoalDefinition` (goal_tracker.py, lines 27-37). -/
structure GoalDefinition where
  name : String
  data_type : String
  target : ℚ
  unit : String
  is_cumulative : Bool := true
  reminder_threshold : ℚ := 1/2
  celebration_message : String := "Goal achieved!"
deriving DecidableEq, Repr

/-- `GoalProgress` (goal_tracker.py, lines 40-62; `to_dict` omitted). -/
structure GoalProgress where
  goal : GoalDefinition
  current_value : ℚ := 0
  status : GoalStatus := .not_started
  achieved_at : Option ℤ := none
  last_updated : ℤ := 0
  notified_achieved : Bool := false
  notified_at_risk : Bool := false
deriving DecidableEq, Repr

/-- `GoalProgress.progress_percent` (lines 52-57): 100 for a zero target,
else the percentage capped at 100. -/
def progress_percent (p : GoalProgress) : ℚ :=
  if p.goal.target = 0 then 100
  else min (p.current_value / p.goal.target * 100) 100

/-- `GoalProgress.remaining` (lines 59-62): the amount still to go, floored
at 0. -/
def remaining (p : GoalProgress) : ℚ :=
  max (p.goal.target - p.current_value) 0

/-- The message strings of `GoalEvent`, as an ADT carrying the interpolated
data (`atRiskMsg` carries the exact percent/remaining the source rounds for
display, plus the hours left in the day). -/
inductive GoalMessage where
  | celebration (text : String)
  | atRiskMsg (percent remainingAmount : ℚ) (hoursLeft : ℤ)
deriving DecidableEq, Repr

/-- `GoalEvent` (goal_tracker.py, lines 80-104; `to_dict` omitted). -/
structure GoalEvent where
  event_type : String
  goal_name : String
  data_type : String
  current_value : ℚ
  target_value : ℚ
  progressPercent : ℚ
  message : GoalMessage
  timestamp : ℤ
deriving DecidableEq, Repr

/-- `GoalTracker.DEFAULT_GOALS` (goal_tracker.py, lines 118-155). -/
def DEFAULT_GOALS : List GoalDefinition :=
  [ { name := "Daily Steps", data_type := "steps", target := 10000, unit := "steps",
      is_cumulative := true, reminder_threshold := 3/5,
      celebration_message := "You hit your step goal! Great job staying active today!" },
    { name := "Active Minutes", data_type := "active_minutes", target := 30, unit := "minutes",
      is_cumulative := true, reminder_threshold := 1/2,
      celebration_message := "You have been active for 30+ minutes today!" },
    { name := "Sleep Duration", data_type := "sleep", target := 7, unit := "hours",
      is_cumulative := false, reminder_threshold := 4/5,
      celebration_message := "Great sleep! You got the recommended 7+ hours." },
    { name := "Water Intake", data_type := "water", target := 8, unit := "glasses",
      is_cumulative := true, reminder_threshold := 1/2,
      celebration_message := "You have stayed hydrated today!" } ]

/-- `GoalTracker` state (goal_tracker.py, lines 107-185): the configured goal
dict, the current calendar day, today's per-type progress dict, and the event
history.  Calendar days are modelled as integers. -/
structure GoalTracker where
  goals : List (String × GoalDefinition)
  reset_hour : ℤ := 0
  current_date : Option ℤ := none
  progress : List (String × GoalProgress) := []
  event_history : List GoalEvent := []
deriving DecidableEq, Repr

/-- `_ensure_current_day` (lines 187-210): on a date change, replace the
progress dict with fresh zero progress for every configured goal.  (The
source's `_archive_day` marks the old day's unachieved goals `missed` just
before the old dict is discarded and only logs them; the discarded dict is
unobservable afterwards.) -/
def ensureDay (t : GoalTracker) (today : ℤ) : GoalTracker :=
  if t.current_date = some today then t
  else
    { t with current_date := some today,
             progress := t.goals.map (fun kg => (kg.1, { goal := kg.2 })) }

/-- Build a `GoalTracker(goals)` for `today` (constructor, lines 157-185:
the goal dict is keyed by `data_type`, then `_ensure_current_day` seeds
today's progress). -/
def GoalTracker.init (gs : List GoalDefinition) (today : ℤ) : GoalTracker :=
  ensureDay
    { goals := gs.foldl (fun acc g => dictInsert g.data_type g acc) [] }
    today

/-- The `achieved` `GoalEvent` built in `update_progress` (lines 281-290). -/
def mkAchievedEvent (data_type : String) (p : GoalProgress) (ts : ℤ) : GoalEvent :=
  { event_type := "achieved", goal_name := p.goal.name, data_type := data_type,
    current_value := p.current_value, target_value := p.goal.target,
    progressPercent := progress_percent p,
    message := .celebration p.goal.celebration_message, timestamp := ts }

/-- `update_progress` (goal_tracker.py, lines 223-300).  Returns the event (if
any) and the updated tracker.  The progress entry for a configured goal always
exists (seeded by `_ensure_current_day` / `add_goal`); the unreachable missing
case returns the tracker unchanged where the source would raise `KeyError`. -/
def update_progress (t : GoalTracker) (data_type : String) (value : ℚ)
    (is_cumulative_update : Bool) (ts today : ℤ) : Option GoalEvent × GoalTracker :=
  let t := ensureDay t today
  match List.lookup data_type t.goals with
  | none => (none, t)
  | some _ =>
  match List.lookup data_type t.progress with
  | none => (none, t)
  | some p =>
    let goal := p.goal
    -- both branches of the source's `is_cumulative` conditional assign the
    -- incoming value directly ("Wearable sends total, not delta")
    let cv := if goal.is_cumulative && is_cumulative_update then value else value
    let status :=
      if goal.target ≤ cv then GoalStatus.achieved
      else if 0 < cv then GoalStatus.in_progress
      else GoalStatus.not_started
    let achievedAt :=
      if decide (status = GoalStatus.achieved) && decide (p.achieved_at = none) then some ts
      else p.achieved_at
    let fire := decide (status = GoalStatus.achieved) && !p.notified_achieved
    let p2 : GoalProgress :=
      { p with current_value := cv, last_updated := ts, status := status,
               achieved_at := achievedAt,
               notified_achieved := if fire then true else p.notified_achieved }
    let e := if fire then some (mkAchievedEvent data_type p2 ts) else none
    (e, { t with progress := dictInsert data_type p2 t.progress,
                 event_history := t.event_history ++ e.toList })

/-- The `at_risk` `GoalEvent` built in `check_at_risk_goals` (lines 342-357);
the source stamps it with the wall clock (`now`). -/
def mkAtRiskEvent (data_type : String) (p : GoalProgress) (hoursRemaining now : ℤ) :
    GoalEvent :=
  { event_type := "at_risk", goal_name := p.goal.name, data_type := data_type,
    current_value := p.current_value, target_value := p.goal.target,
    progressPercent := progress_percent p,
    message := .atRiskMsg (progress_percent p) (remaining p) hoursRemaining,
    timestamp := now }

/-- The loop body of `check_at_risk_goals` (lines 328-361): walk the progress
dict in order; skip achieved or already-notified goals; mark a goal under its
reminder threshold `at_risk`, set `notified_at_risk`, and emit an event. -/
def atRiskLoop (hoursRemaining now : ℤ) :
    List (String × GoalProgress) → List GoalEvent × List (String × GoalProgress)
  | [] => ([], [])
  | (dt, p) :: rest =>
    if p.status = .achieved then
      let r := atRiskLoop hoursRemaining now rest
      (r.1, (dt, p) :: r.2)
    else if p.notified_at_risk then
      let r := atRiskLoop hoursRemaining now rest
      (r.1, (dt, p) :: r.2)
    else if progress_percent p < p.goal.reminder_threshold * 100 then
      let p2 := { p with status := GoalStatus.at_risk, notified_at_risk := true }
      let r := atRiskLoop hoursRemaining now rest
      (mkAtRiskEvent dt p2 hoursRemaining now :: r.1, (dt, p2) :: r.2)
    else
      let r := atRiskLoop hoursRemaining now rest
      (r.1, (dt, p) :: r.2)

/-- `check_at_risk_goals` (goal_tracker.py, lines 302-363): a no-op returning
`[]` before hour 18, otherwise the at-risk sweep over today's progress. -/
def check_at_risk_goals (t : GoalTracker) (current_hour : ℤ) (today now : ℤ) :
    List GoalEvent × GoalTracker :=
  let t := ensureDay t today
  if current_hour < 18 then ([], t)
  else
    let hoursRemaining := 24 - current_hour
    let r := atRiskLoop hoursRemaining now t.progress
    (r.1, { t with progress := r.2, event_history := t.event_history ++ r.1 })

/-- `AlertType` (alert_queue.py, lines 16-23). -/
inductive AlertType where
  | anomaly_detected
  | goal_achieved
  | goal_reminder
  | critical_health
  | report_ready
  | investigation_complete
deriving DecidableEq, Repr

/-- `AutomationAlert` (alert_queue.py, lines 26-75): the uuid `id` is
modelled as a number; `investigation_context` (a free-form dict) and
`to_dict` serialization are omitted. -/
structure AutomationAlert where
  alert_type : AlertType
  title : String
  message : String
  timestamp : ℤ := 0
  id : ℕ := 0
  severity : Severity := .info
  domain : String := "automation"
  data_type : Option String := none
  value : Option ℚ := none
  baseline : Option ℚ := none
  deviation : Option ℚ := none
  goal_name : Option String := none
  goal_target : Option ℚ := none
deriving DecidableEq, Repr

/-- A subscriber mailbox: `asyncio.Queue(maxsize=100)` (alert_queue.py,
line 144).  `put_nowait` raises `QueueFull` when `items.length ≥ maxsize`. -/
structure Mailbox where
  maxsize : ℕ := 100
  items : List AutomationAlert := []
deriving DecidableEq, Repr

/-- `AlertQueue` state (alert_queue.py, lines 85-98): bounded history,
subscriber mailboxes, stats counters. -/
structure AlertQueue where
  max_history : ℕ := 100
  history : List AutomationAlert := []
  subscribers : List Mailbox := []
  total_published : ℕ := 0
  total_subscribers : ℕ := 0
  alerts_by_type : List (AlertType × ℕ) := []
deriving DecidableEq, Repr

/-- `AlertQueue(max_history)` constructor (lines 85-98). -/
def AlertQueue.init (cap : ℕ) : AlertQueue := { max_history := cap }

/-- Bump the per-type counter (`alerts_by_type.get(t, 0) + 1`, lines 114-116). -/
def bumpType (ty : AlertType) : List (AlertType × ℕ) → List (AlertType × ℕ)
  | [] => [(ty, 1)]
  | (t2, n) :: rest => if ty = t2 then (ty, n + 1) :: rest else (t2, n) :: bumpType ty rest

/-- The subscriber-notification loop of `publish` (lines 118-128): a
non-blocking enqueue into each mailbox; a full mailbox raises `QueueFull`,
is collected as dead and removed from the subscriber list afterwards
(survivors keep their order). -/
def notifySubscribers (a : AutomationAlert) : List Mailbox → List Mailbox
  | [] => []
  | m :: rest =>
    if m.items.length < m.maxsize then
      { m with items := m.items ++ [a] } :: notifySubscribers a rest
    else
      notifySubscribers a rest

/-- `publish` (alert_queue.py, lines 100-128): append to the bounded history,
update the counters, broadcast to all mailboxes with space, drop full
mailboxes from the subscriber set.  Total — publish never raises. -/
def publish (q : AlertQueue) (a : AutomationAlert) : AlertQueue :=
  { q with history := appendBounded q.max_history q.history a,
           total_published := q.total_published + 1,
           alerts_by_type := bumpType a.alert_type q.alerts_by_type,
           subscribers := notifySubscribers a q.subscribers }

/-- Fold `publish` over a list of alerts, in order. -/
def publishAll (q : AlertQueue) (as : List AutomationAlert) : AlertQueue :=
  as.foldl publish q

/-- `get_history` (alert_queue.py, lines 165-175):
`list(self._history)[-count:][::-1]` — the `[-count:]` slice of the history,
newest first (for `count = 0` the slice is the whole history). -/
def get_history (q : AlertQueue) (count : ℕ) : List AutomationAlert :=
  (sliceLast count q.history).reverse

/-- The registration half of `subscribe` (alert_queue.py, lines 130-155): a
fresh mailbox of capacity 100, optionally preloaded with the most recent
`history_count` alerts oldest-first, appended to the subscriber list.  (The
yield loop and the disconnect deregistration are the async half, outside the
state model.) -/
def subscribeRegister (q : AlertQueue) (include_history : Bool)
    (history_count : ℕ) : AlertQueue × Mailbox :=
  let mb : Mailbox :=
    { maxsize := 100,
      items := if include_history then lastN history_count q.history else [] }
  ({ q with subscribers := q.subscribers ++ [mb],
            total_subscribers := q.total_subscribers + 1 }, mb)

/-- Number of recorded samples for a data type (`stats.count`, 0 when the
type has never been seen). -/
def statsCount (d : AnomalyDetector) (dt : String) : ℕ :=
  ((List.lookup dt d.stats).map RollingStats.count).getD 0

/-- The effective `min_readings` for a data type (per-type default, else the
detector-wide default). -/
def minReadingsFor (d : AnomalyDetector) (dt : String) : ℕ :=
  (DEFAULT_THRESHOLDS dt).min_readings.getD d.default_min_readings

/-- A `GoalProgress` that overshoots its target: 10500 against 10000. -/
def overshootProgress : GoalProgress :=
  { goal := { name := "Daily Steps", data_type := "steps", target := 10000, unit := "steps" },
    current_value := 10500 }

/-- A `GoalProgress` whose goal has target 0. -/
def zeroTargetProgress : GoalProgress :=
  { goal := { name := "Zero", data_type := "zero", target := 0, unit := "units" },
    current_value := 3 }

/-- A default tracker for day 0. -/
def stepsTracker : GoalTracker := GoalTracker.init DEFAULT_GOALS 0

/-- The tracker after the steps goal has been achieved at 10500/10000. -/
def achievedTracker : GoalTracker :=
  (update_progress stepsTracker "steps" 10500 true 0 0).2

/-- A queue with one already-full mailbox (capacity 0) and one mailbox with
space. -/
def mixedQueue : AlertQueue :=
  { max_history := 100, history := [],
    subscribers := [{ maxsize := 0, items := [] }, { maxsize := 100, items := [] }] }

/-- A sample alert. -/
def sampleAlert : AutomationAlert :=
  { alert_type := .report_ready, title := "Report Ready: Weekly", message := "ready" }

/-- Two distinguishable alerts for exercising the history slice. -/
def histAlertA : AutomationAlert :=
  { alert_type := .goal_achieved, title := "Goal Achieved: Daily Steps!",
    message := "first", id := 1 }

/-- See `histAlertA`. -/
def histAlertB : AutomationAlert :=
  { alert_type := .goal_reminder, title := "Goal Reminder: Water Intake",
    message := "second", id := 2 }

/-- The at-risk condition of `check_at_risk_goals` (lines 331-338): not yet
achieved, not yet notified today, progress below the reminder threshold. -/
def atRiskQualifies (p : GoalProgress) : Bool :=
  !decide (p.status = GoalStatus.achieved) && !p.notified_at_risk &&
    decide (progress_percent p < p.goal.reminder_threshold * 100)

/-- Mark a goal at risk (lines 339-340). -/
def markAtRisk (p : GoalProgress) : GoalProgress :=
  { p with status := GoalStatus.at_risk, notified_at_risk := true }

/-- A default tracker on day 0 with steps at 2000/10000 (20%). -/
def eveningTracker : GoalTracker :=
  (update_progress (GoalTracker.init DEFAULT_GOALS 0) "steps" 2000 true 0 0).2

/-- A detector whose workout window holds the five prior samples
[10, 10, 10, 10, 12] (all at time 0). -/
def workoutDetector : AnomalyDetector :=
  [(10 : ℚ), 10, 10, 10, 12].foldl
    (fun d v => add_reading d "workout" v 0 0) AnomalyDetector.init

/-- The anomaly check performed inside `check_and_track_anomaly`: the check
runs against the detector state after `add_reading` has recorded the value. -/
def pipelineCheck (d : AnomalyDetector) (dt : String) (v : ℚ) (ts now : ℤ) :
    AnomalyResult :=
  (check_anomaly (add_reading d dt v ts now) dt v ts).1

/-- Run a same-day sequence of `update_progress` calls for one data type,
collecting each call's returned event. -/
def runUpdates (dt : String) (today : ℤ) :
    GoalTracker → List (ℚ × ℤ) → List (Option GoalEvent) × GoalTracker
  | t, [] => ([], t)
  | t, (v, ts) :: rest =>
    let r := update_progress t dt v true ts today
    let rr := runUpdates dt today r.2 rest
    (r.1 :: rr.1, rr.2)

/-! ### Helper lemmas -/

theorem lookup_dictInsert_self (k : String) (v : α) (l : List (String × α)) :
    List.lookup k (dictInsert k v l) = some v := by
  induction l with
  | nil => simp [dictInsert, List.lookup]
  | cons kv rest ih =>
    obtain ⟨k2, v2⟩ := kv
    by_cases h : k = k2
    · simp [dictInsert, h, List.lookup]
    · simp only [dictInsert, if_neg h, List.lookup]
      have : (k == k2) = false := by simpa using h
      simp [this, ih]

theorem lastN_length (n : ℕ) (l : List α) : (lastN n l).length = min n l.length := by
  simp [lastN]
  omega

theorem lastN_length_le (n : ℕ) (l : List α) : (lastN n l).length ≤ n := by
  rw [lastN_length]; omega

theorem lastN_of_length_le (n : ℕ) (l : List α) (h : l.length ≤ n) : lastN n l = l := by
  simp [lastN, Nat.sub_eq_zero_of_le h]

/-- The effects of `check_anomaly` when an absolute critical threshold is
crossed: an immediate critical result and an unchanged detector state.
Shared by the absolute-precedence and frame-effect theorems. -/
theorem check_anomaly_critical_cases (d : AnomalyDetector) (dt : String) (v : ℚ) (ts : ℤ)
    (h : (∃ ch, (DEFAULT_THRESHOLDS dt).critical_high = some ch ∧ ch ≤ v) ∨
         (∃ cl, (DEFAULT_THRESHOLDS dt).critical_low = some cl ∧ v ≤ cl)) :
    (check_anomaly d dt v ts).2 = d ∧ (check_anomaly d dt v ts).1.detected = true ∧
      (check_anomaly d dt v ts).1.severity = .critical ∧
      (check_anomaly d dt v ts).1.deviation_sigma = .inf := by
  rcases h with ⟨ch, hch, hle⟩ | ⟨cl, hcl, hle⟩
  · simp only [check_anomaly, hch, Option.filter]
    simp [hle]
  · rcases hh : (DEFAULT_THRESHOLDS dt).critical_high with _ | ch
    · simp only [check_anomaly, hh, hcl, Option.filter]
      simp [hle]
    · by_cases hch2 : ch ≤ v
      · simp only [check_anomaly, hh, Option.filter]
        simp [hch2]
      · simp only [check_anomaly, hh, hcl, Option.filter]
        simp [hch2, hle]

/-! ### C1: absolute critical thresholds always win -/

/-- C1.  For every data type with a configured absolute `critical_high`
(resp. `critical_low`) threshold and every value at or beyond it,
`check_anomaly` returns `detected = true`, `severity = critical` and
`deviation_sigma = +inf`, for every detector state — in particular whatever
the baseline statistics are and even with zero recorded samples. -/
theorem critical_threshold_precedence (d : AnomalyDetector) (dt : String) (v : ℚ) (ts : ℤ)
    (h : (∃ ch, (DEFAULT_THRESHOLDS dt).critical_high = some ch ∧ ch ≤ v) ∨
         (∃ cl, (DEFAULT_THRESHOLDS dt).critical_low = some cl ∧ v ≤ cl)) :
    (check_anomaly d dt v ts).1.detected = true ∧
    (check_anomaly d dt v ts).1.severity = .critical ∧
    (check_anomaly d dt v ts).1.deviation_sigma = .inf :=
  (check_anomaly_critical_cases d dt v ts h).2

/-- C1 witness: heart_rate 180 on a freshly constructed detector (zero
samples) is flagged critical immediately. -/
theorem critical_threshold_precedence_witness :
    (check_anomaly AnomalyDetector.init "heart_rate" 180 0).1.detected = true ∧
    (check_anomaly AnomalyDetector.init "heart_rate" 180 0).1.severity = .critical ∧
    (check_anomaly AnomalyDetector.init "heart_rate" 180 0).1.deviation_sigma = .inf :=
  critical_threshold_precedence AnomalyDetector.init "heart_rate" 180 0
    (Or.inl ⟨120, rfl, by norm_num⟩)

/-! ### C2: insufficient-baseline guard (corrected) -/

/-- C2 counterexample: heart_rate has zero recorded samples (fewer than its
`min_readings = 10`), yet `check_anomaly` at value 180 returns
`detected = true` — the absolute critical threshold is checked before the
insufficient-baseline guard, so the guard is not unconditional. -/
theorem insufficient_guard_counterexample :
    statsCount AnomalyDetector.init "heart_rate" = 0 ∧
    minReadingsFor AnomalyDetector.init "heart_rate" = 10 ∧
    (check_anomaly AnomalyDetector.init "heart_rate" 180 0).1.detected = true :=
  ⟨rfl, rfl, rfl⟩

/-- C2 amended: for every data type and value, if fewer than `min_readings`
samples have been added AND the value does not cross a configured absolute
critical threshold, `check_anomaly` returns `detected = false` with
`severity = info` and the insufficient-baseline message. -/
theorem insufficient_guard_amended (d : AnomalyDetector) (dt : String) (v : ℚ) (ts : ℤ)
    (hhigh : ∀ ch, (DEFAULT_THRESHOLDS dt).critical_high = some ch → v < ch)
    (hlow : ∀ cl, (DEFAULT_THRESHOLDS dt).critical_low = some cl → cl < v)
    (hcount : statsCount d dt < minReadingsFor d dt) :
    (check_anomaly d dt v ts).1.detected = false ∧
    (check_anomaly d dt v ts).1.severity = .info ∧
    (check_anomaly d dt v ts).1.message =
      .insufficientBaseline dt (statsCount d dt) (minReadingsFor d dt) := by
  have hfh : (DEFAULT_THRESHOLDS dt).critical_high.filter (fun ch => decide (ch ≤ v)) = none := by
    rcases hh : (DEFAULT_THRESHOLDS dt).critical_high with _ | ch
    · rfl
    · simp [Option.filter, not_le.mpr (hhigh ch hh)]
  have hfl : (DEFAULT_THRESHOLDS dt).critical_low.filter (fun cl => decide (v ≤ cl)) = none := by
    rcases hh : (DEFAULT_THRESHOLDS dt).critical_low with _ | cl
    · rfl
    · simp [Option.filter, not_le.mpr (hlow cl hh)]
  rcases hs : List.lookup dt d.stats with _ | s
  · simp only [check_anomaly, hfh, hfl, hs]
    simp [statsCount, minReadingsFor, hs]
  · have hc : s.count < minReadingsFor d dt := by
      simpa [statsCount, hs] using hcount
    simp only [check_anomaly, hfh, hfl, hs]
    simp [statsCount, minReadingsFor, hs, hc, minReadingsFor] at hc ⊢
    simp [hc]

/-- C2 amended witness: steps (no absolute thresholds configured) with zero
samples yields the non-detected insufficient-baseline result. -/
theorem insufficient_guard_amended_witness :
    (check_anomaly AnomalyDetector.init "steps" 5000 0).1.detected = false ∧
    (check_anomaly AnomalyDetector.init "steps" 5000 0).1.severity = .info ∧
    (check_anomaly AnomalyDetector.init "steps" 5000 0).1.message =
      .insufficientBaseline "steps" (statsCount AnomalyDetector.init "steps")
        (minReadingsFor AnomalyDetector.init "steps") :=
  insufficient_guard_amended AnomalyDetector.init "steps" 5000 0
    (by intro ch h; simp [DEFAULT_THRESHOLDS] at h)
    (by intro cl h; simp [DEFAULT_THRESHOLDS] at h)
    (by decide)

/-! ### C10: absolute-threshold detections never enter the anomaly history -/

/-- C10.  A `check_anomaly` call that fires via an absolute critical
threshold leaves the anomaly history (and hence `get_anomaly_history`)
unchanged: only the statistical sigma-deviation branch ever appends to it. -/
theorem critical_not_in_history (d : AnomalyDetector) (dt : String) (v : ℚ) (ts : ℤ)
    (h : (∃ ch, (DEFAULT_THRESHOLDS dt).critical_high = some ch ∧ ch ≤ v) ∨
         (∃ cl, (DEFAULT_THRESHOLDS dt).critical_low = some cl ∧ v ≤ cl)) :
    (check_anomaly d dt v ts).1.detected = true ∧
    (check_anomaly d dt v ts).2.history = d.history ∧
    ∀ count, get_anomaly_history (check_anomaly d dt v ts).2 count =
      get_anomaly_history d count := by
  obtain ⟨heq, h1, -, -⟩ := check_anomaly_critical_cases d dt v ts h
  rw [heq]
  exact ⟨h1, rfl, fun _ => rfl⟩

/-- C10 witness: a critical stress reading (9 ≥ critical_high 9) is detected
but appends nothing to the anomaly history of a fresh detector. -/
theorem critical_not_in_history_witness :
    (check_anomaly AnomalyDetector.init "stress" 9 0).1.detected = true ∧
    (check_anomaly AnomalyDetector.init "stress" 9 0).2.history =
      AnomalyDetector.init.history ∧
    ∀ count, get_anomaly_history (check_anomaly AnomalyDetector.init "stress" 9 0).2 count =
      get_anomaly_history AnomalyDetector.init count :=
  critical_not_in_history AnomalyDetector.init "stress" 9 0
    (Or.inl ⟨9, rfl, by norm_num⟩)

/-! ### C9: goal progress clamping -/

/-- C9.  `progress_percent` is capped at 100 and `remaining` floored at 0 for
every `GoalProgress`; a zero target yields 100% rather than a division by
zero; and the concrete overshoot 10500/10000 gives exactly 100% with 0
remaining. -/
theorem goal_clamping :
    (∀ p : GoalProgress, progress_percent p ≤ 100 ∧ 0 ≤ remaining p ∧
      (p.goal.target = 0 → progress_percent p = 100)) ∧
    progress_percent overshootProgress = 100 ∧ remaining overshootProgress = 0 := by
  refine ⟨fun p => ⟨?_, ?_, fun h => ?_⟩, ?_, ?_⟩
  · unfold progress_percent
    split
    · norm_num
    · exact min_le_right _ _
  · exact le_max_right _ _
  · simp [progress_percent, h]
  · norm_num [progress_percent, overshootProgress]
  · norm_num [remaining, overshootProgress]

/-- C9 witness: the zero-target case evaluates to 100%. -/
theorem goal_clamping_witness : progress_percent zeroTargetProgress = 100 :=
  (goal_clamping.1 zeroTargetProgress).2.2 rfl

/-! ### C5: "achieved is terminal for the day" (corrected) -/

theorem ensureDay_of_date {t : GoalTracker} {today : ℤ}
    (hdate : t.current_date = some today) : ensureDay t today = t := by
  simp [ensureDay, hdate]

/-- C5 counterexample: after the steps goal is `achieved` at 10500, a
same-day `update_progress("steps", 5000)` moves the status back to
`in_progress` — `update_progress` recomputes the status from the new value
unconditionally, so `achieved` is not terminal within the day. -/
theorem achieved_terminal_counterexample :
    (List.lookup "steps" achievedTracker.progress).map GoalProgress.status =
      some .achieved ∧
    (List.lookup "steps"
        (update_progress achievedTracker "steps" 5000 true 1 0).2.progress).map
        GoalProgress.status = some .in_progress := by
  constructor <;> rfl

/-- C5 amended: within one day, once a goal is achieved the achievement
notification state is terminal (`notified_achieved` stays true and no further
achieved event is ever returned), and the `achieved` status itself persists
exactly for updates whose value still reaches the target; an update below the
target reverts the status to `in_progress` (positive value) instead. -/
theorem achieved_persists_amended (t : GoalTracker) (dt : String) (v : ℚ) (ts today : ℤ)
    (g : GoalDefinition) (p : GoalProgress)
    (hdate : t.current_date = some today)
    (hg : List.lookup dt t.goals = some g)
    (hp : List.lookup dt t.progress = some p)
    (hnot : p.notified_achieved = true) :
    (update_progress t dt v true ts today).1 = none ∧
    (p.goal.target ≤ v →
      (List.lookup dt (update_progress t dt v true ts today).2.progress).map
        GoalProgress.status = some .achieved) ∧
    (¬ p.goal.target ≤ v → 0 < v →
      (List.lookup dt (update_progress t dt v true ts today).2.progress).map
        GoalProgress.status = some .in_progress) ∧
    (List.lookup dt (update_progress t dt v true ts today).2.progress).map
      GoalProgress.notified_achieved = some true := by
  have hens := ensureDay_of_date hdate
  refine ⟨?_, ?_, ?_, ?_⟩
  · simp only [update_progress, hens, hg, hp]
    simp [hnot]
  · intro hle
    simp only [update_progress, hens, hg, hp]
    simp [hnot, hle, lookup_dictInsert_self]
  · intro hlt hpos
    simp only [update_progress, hens, hg, hp]
    simp [hnot, hlt, hpos, lookup_dictInsert_self]
  · simp only [update_progress, hens, hg, hp]
    simp [hnot, lookup_dictInsert_self]

/-- C5 amended witness: with the steps goal already achieved and notified,
a same-day update to 11000 (still at target) keeps the status `achieved`
and returns no duplicate event. -/
theorem achieved_persists_amended_witness :
    (update_progress achievedTracker "steps" 11000 true 1 0).1 = none ∧
    (List.lookup "steps"
        (update_progress achievedTracker "steps" 11000 true 1 0).2.progress).map
        GoalProgress.status = some .achieved := by
  have hex : ∃ p, List.lookup "steps" achievedTracker.progress = some p ∧
      p.notified_achieved = true ∧ p.goal.target = 10000 := ⟨_, rfl, rfl, rfl⟩
  obtain ⟨p, hp, hnot, htarget⟩ := hex
  have hgex : ∃ g, List.lookup "steps" achievedTracker.goals = some g := ⟨_, rfl⟩
  obtain ⟨g, hg⟩ := hgex
  have h := achieved_persists_amended achievedTracker "steps" 11000 1 0 g p rfl hg hp hnot
  exact ⟨h.1, h.2.1 (by rw [htarget]; norm_num)⟩

/-! ### C6/C7 helper lemmas: the bounded history ring and the broadcast loop -/

theorem lastN_reverse_eq (n : ℕ) (l : List α) : (lastN n l).reverse = l.reverse.take n := by
  rw [lastN, List.reverse_drop]
  rcases Nat.le_total n l.length with h | h
  · congr 1
    omega
  · rw [Nat.sub_eq_zero_of_le h, Nat.sub_zero,
        List.take_of_length_le (by simp), List.take_of_length_le (by simpa using h)]

theorem lastN_eq_reverse_take (n : ℕ) (l : List α) :
    lastN n l = (l.reverse.take n).reverse := by
  rw [← lastN_reverse_eq, List.reverse_reverse]

theorem take_append_take (n : ℕ) (a b : List α) :
    (a ++ b.take n).take n = (a ++ b).take n := by
  rw [List.take_append_eq_append_take, List.take_append_eq_append_take, List.take_take]
  congr 2
  omega

theorem lastN_append_lastN (n : ℕ) (l1 l2 : List α) :
    lastN n (lastN n l1 ++ l2) = lastN n (l1 ++ l2) := by
  apply List.reverse_injective
  rw [lastN_reverse_eq, lastN_reverse_eq, List.reverse_append, List.reverse_append,
      lastN_reverse_eq, take_append_take]

theorem publishAll_history (as : List AutomationAlert) :
    ∀ q : AlertQueue, q.history.length ≤ q.max_history →
      (publishAll q as).history = lastN q.max_history (q.history ++ as) := by
  induction as with
  | nil =>
    intro q h
    simp [publishAll, lastN_of_length_le _ _ h]
  | cons a rest ih =>
    intro q h
    have hstep : publishAll q (a :: rest) = publishAll (publish q a) rest := rfl
    have hlen : (publish q a).history.length ≤ (publish q a).max_history :=
      lastN_length_le _ _
    rw [hstep, ih (publish q a) hlen]
    show lastN q.max_history (lastN q.max_history (q.history ++ [a]) ++ rest) = _
    rw [lastN_append_lastN, List.append_assoc]
    rfl

/-! ### C6: history bound and get_history ordering (corrected) -/

/-- C6 counterexample: `get_history(0)` on a queue holding two published
alerts returns the entire history newest-first —
`list(history)[-0:][::-1]` slices from index 0 — not the most recent zero
alerts (the empty list), so "returns the most recent `count`" fails at
`count = 0`. -/
theorem history_bound_counterexample :
    get_history (publishAll (AlertQueue.init 100) [histAlertA, histAlertB]) 0 =
      [histAlertB, histAlertA] ∧
    (lastN 0 [histAlertA, histAlertB]).reverse = ([] : List AutomationAlert) := by
  constructor <;> rfl

/-- C6 amended.  Publishing any sequence of alerts into a fresh
`AlertQueue(max_history=100)` leaves exactly the `min(k, 100)` most recent
alerts in history (the suffix of the publish sequence, oldest evicted
first); `get_history(count)` for `count ≥ 1` returns the most recent `count`
of them newest-first, while `get_history(0)` returns the entire history
newest-first (Python's `[-0:]` slice is the whole list). -/
theorem history_bound_amended (as : List AutomationAlert) (count : ℕ) :
    (publishAll (AlertQueue.init 100) as).history = lastN 100 as ∧
    (publishAll (AlertQueue.init 100) as).history.length = min as.length 100 ∧
    (1 ≤ count →
      get_history (publishAll (AlertQueue.init 100) as) count =
        (lastN count (lastN 100 as)).reverse) ∧
    get_history (publishAll (AlertQueue.init 100) as) 0 = (lastN 100 as).reverse := by
  have h := publishAll_history as (AlertQueue.init 100) (by simp [AlertQueue.init])
  have h1 : (publishAll (AlertQueue.init 100) as).history = lastN 100 as := by
    simpa [AlertQueue.init] using h
  refine ⟨h1, ?_, ?_, ?_⟩
  · rw [h1, lastN_length, Nat.min_comm]
  · intro hc
    rw [get_history, h1, sliceLast, if_neg (by omega)]
  · rw [get_history, h1, sliceLast, if_pos rfl]

/-- C6 amended witness: two published alerts, `count = 1` — the most recent
alert alone, newest-first. -/
theorem history_bound_amended_witness :
    (publishAll (AlertQueue.init 100) [histAlertA, histAlertB]).history =
      lastN 100 [histAlertA, histAlertB] ∧
    get_history (publishAll (AlertQueue.init 100) [histAlertA, histAlertB]) 1 =
      (lastN 1 (lastN 100 [histAlertA, histAlertB])).reverse := by
  have h := history_bound_amended [histAlertA, histAlertB] 1
  exact ⟨h.1, h.2.2.1 (le_refl 1)⟩

/-! ### C7: full mailboxes are silently dropped and pruned -/

theorem notifySubscribers_eq_filter_map (a : AutomationAlert) (l : List Mailbox) :
    notifySubscribers a l =
      (l.filter (fun m => decide (m.items.length < m.maxsize))).map
        (fun m => { m with items := m.items ++ [a] }) := by
  induction l with
  | nil => rfl
  | cons m rest ih =>
    by_cases h : m.items.length < m.maxsize
    · simp [notifySubscribers, h, List.filter_cons, ih]
    · simp [notifySubscribers, h, List.filter_cons, ih]

/-- C7.  `publish` is total (never raises): the alert is appended to the
bounded history; every subscriber whose mailbox has space receives it at the
back of its mailbox; every subscriber whose mailbox is full is silently
removed from the subscriber set (order of the survivors preserved); each
surviving mailbox ends with the published alert. -/
theorem full_mailbox_dropped (q : AlertQueue) (a : AutomationAlert) :
    (publish q a).history = lastN q.max_history (q.history ++ [a]) ∧
    (publish q a).subscribers =
      (q.subscribers.filter (fun m => decide (m.items.length < m.maxsize))).map
        (fun m => { m with items := m.items ++ [a] }) ∧
    ∀ mb ∈ (publish q a).subscribers, mb.items.getLast? = some a := by
  refine ⟨rfl, notifySubscribers_eq_filter_map a q.subscribers, ?_⟩
  intro mb hmb
  rw [show (publish q a).subscribers = notifySubscribers a q.subscribers from rfl,
      notifySubscribers_eq_filter_map] at hmb
  obtain ⟨m, hm, rfl⟩ := List.mem_map.mp hmb
  exact List.getLast?_concat ..

/-- C7 witness: publishing into `mixedQueue` drops the full mailbox, delivers
to the other, and appends to history. -/
theorem full_mailbox_dropped_witness :
    (publish mixedQueue sampleAlert).history = [sampleAlert] ∧
    (publish mixedQueue sampleAlert).subscribers =
      [{ maxsize := 100, items := [sampleAlert] }] ∧
    ∀ mb ∈ (publish mixedQueue sampleAlert).subscribers,
      mb.items.getLast? = some sampleAlert := by
  have h := full_mailbox_dropped mixedQueue sampleAlert
  refine ⟨?_, ?_, h.2.2⟩
  · rw [h.1]; rfl
  · rw [h.2.1]; rfl

/-! ### C8: at-risk gating and sweep -/

theorem atRiskLoop_spec (hoursRemaining now : ℤ) (l : List (String × GoalProgress)) :
    (atRiskLoop hoursRemaining now l).1 =
      (l.filter (fun kp => atRiskQualifies kp.2)).map
        (fun kp => mkAtRiskEvent kp.1 (markAtRisk kp.2) hoursRemaining now) ∧
    (atRiskLoop hoursRemaining now l).2 =
      l.map (fun kp => (kp.1, if atRiskQualifies kp.2 then markAtRisk kp.2 else kp.2)) := by
  induction l with
  | nil => exact ⟨rfl, rfl⟩
  | cons kp rest ih =>
    obtain ⟨dt, p⟩ := kp
    by_cases h1 : p.status = GoalStatus.achieved
    · simp [atRiskLoop, h1, atRiskQualifies, List.filter_cons, ih.1, ih.2]
    · by_cases h2 : p.notified_at_risk
      · simp [atRiskLoop, h1, h2, atRiskQualifies, List.filter_cons, ih.1, ih.2]
      · by_cases h3 : progress_percent p < p.goal.reminder_threshold * 100
        · simp [atRiskLoop, h1, h2, h3, atRiskQualifies, List.filter_cons, ih.1, ih.2,
            markAtRisk]
        · simp [atRiskLoop, h1, h2, h3, atRiskQualifies, List.filter_cons, ih.1, ih.2]

/-- C8.  Before hour 18, `check_at_risk_goals` returns the empty list
regardless of any goal's progress.  From hour 18 on it returns exactly one
`at_risk` event per goal that is not achieved, not yet at-risk-notified
today, and below its reminder threshold (in progress-dict order, with the
remaining amount and hours-left context), and it marks each such goal
`at_risk` with `notified_at_risk = true` so the reminder cannot fire again
that day. -/
theorem at_risk_gating (t : GoalTracker) (hour today now : ℤ) :
    (hour < 18 → (check_at_risk_goals t hour today now).1 = []) ∧
    (18 ≤ hour →
      (check_at_risk_goals t hour today now).1 =
        ((ensureDay t today).progress.filter (fun kp => atRiskQualifies kp.2)).map
          (fun kp => mkAtRiskEvent kp.1 (markAtRisk kp.2) (24 - hour) now) ∧
      (check_at_risk_goals t hour today now).2.progress =
        (ensureDay t today).progress.map
          (fun kp => (kp.1, if atRiskQualifies kp.2 then markAtRisk kp.2 else kp.2))) := by
  constructor
  · intro h
    simp [check_at_risk_goals, h]
  · intro h
    have hn : ¬ hour < 18 := not_lt.mpr h
    constructor
    · simp [check_at_risk_goals, hn,
        (atRiskLoop_spec (24 - hour) now (ensureDay t today).progress).1]
    · simp [check_at_risk_goals, hn,
        (atRiskLoop_spec (24 - hour) now (ensureDay t today).progress).2]

/-- C8 witness: at hour 14 nothing is returned despite 20% steps progress;
at hour 21 the steps goal (20% < 60% threshold) is among the returned
events, together with the other unstarted goals. -/
theorem at_risk_gating_witness :
    (check_at_risk_goals eveningTracker 14 0 0).1 = [] ∧
    (check_at_risk_goals eveningTracker 21 0 0).1.map GoalEvent.data_type =
      ["steps", "active_minutes", "sleep", "water"] ∧
    (check_at_risk_goals eveningTracker 21 0 0).1.map GoalEvent.progressPercent =
      [20, 0, 0, 0] := by
  have h := at_risk_gating eveningTracker 21 0 0
  refine ⟨(at_risk_gating eveningTracker 14 0 0).1 (by norm_num), ?_, ?_⟩
  · rw [(h.2 (by norm_num)).1]
    with_unfolding_all rfl
  · rw [(h.2 (by norm_num)).1]
    with_unfolding_all rfl

/-! ### C3: the new value and the baseline it is checked against -/

/-- C3 counterexample: with prior workout samples [10,10,10,10,12], checking
the new value 100 through `check_and_track_anomaly` yields `detected = false`
(the just-added 100 inflates the baseline variance to 4310/3, putting 100
within 2.5σ of the new mean 71/3), whereas checking against the baseline of
the prior samples alone — the ordering the claim describes — yields
`detected = true` (mean 10.4, variance 0.8, far beyond 2.5σ).  The pipeline
therefore does compare the new value against a baseline that already
includes itself. -/
theorem baseline_ordering_counterexample :
    (check_and_track_anomaly workoutDetector "workout" 100 0 0).1.1 = false ∧
    (specCheckThenRecord workoutDetector "workout" 100 0 0).1.1 = true := by
  constructor <;> with_unfolding_all rfl

theorem recalcStats_readings (rs : List (ℤ × ℚ)) : (recalcStats rs).readings = rs := by
  unfold recalcStats
  split <;> rfl

theorem recalcStats_count (rs : List (ℤ × ℚ)) : (recalcStats rs).count = rs.length := by
  unfold recalcStats
  split
  · simp_all
  · simp

theorem getLast?_dropWhile_of_not (p : α → Bool) (a : α) :
    ∀ l : List α, l.getLast? = some a → p a = false →
      (l.dropWhile p).getLast? = some a := by
  intro l
  induction l with
  | nil => intro hl _; simp at hl
  | cons x xs ih =>
    intro hl ha
    cases hxs : xs with
    | nil =>
      subst hxs
      simp only [List.getLast?_singleton, Option.some.injEq] at hl
      subst hl
      simp [List.dropWhile, ha]
    | cons y ys =>
      subst hxs
      have hl2 : (y :: ys).getLast? = some a := by
        simpa [List.getLast?_cons_cons] using hl
      by_cases hx : p x
      · simpa [List.dropWhile, hx] using ih hl2 ha
      · simpa [List.dropWhile, hx, List.getLast?_cons_cons] using hl2

theorem getLast?_appendBounded (cap : ℕ) (hcap : 1 ≤ cap) (l : List α) (a : α) :
    (appendBounded cap l a).getLast? = some a := by
  unfold appendBounded lastN
  rw [List.drop_append_of_le_length (by simp; omega)]
  exact List.getLast?_concat ..

/-- All branches of `check_anomaly` report the looked-up stats' mean and
variance as the result's baseline fields. -/
theorem check_anomaly_baseline_fields (d : AnomalyDetector) (dt : String) (v : ℚ)
    (ts : ℤ) (s : RollingStats) (hs : List.lookup dt d.stats = some s) :
    (check_anomaly d dt v ts).1.baseline_mean = s.mean ∧
    (check_anomaly d dt v ts).1.baseline_std_sq = s.var := by
  simp only [check_anomaly, hs, Option.map_some, Option.getD_some]
  split
  · exact ⟨rfl, rfl⟩
  split
  · exact ⟨rfl, rfl⟩
  split
  · exact ⟨rfl, rfl⟩
  split
  next hvar => exact ⟨rfl, hvar.symm⟩
  split
  · exact ⟨rfl, rfl⟩
  · exact ⟨rfl, rfl⟩

/-- C3 amended: in `check_and_track_anomaly`, the reading is recorded first,
so the baseline the check consults already includes the new value: the
post-add stats entry holds the new sample as its most recent reading (when
the sample lies within the rolling window), counts it, and its mean/variance
are exactly the baseline the pipeline's check result reports. -/
theorem pipeline_baseline_includes_new_value (d : AnomalyDetector) (dt : String)
    (v : ℚ) (ts now : ℤ) (hts : now - d.windowSecs ≤ ts) :
    ∃ s, List.lookup dt (add_reading d dt v ts now).stats = some s ∧
      s.readings.getLast? = some (ts, v) ∧
      s.count = s.readings.length ∧
      (pipelineCheck d dt v ts now).baseline_mean = s.mean ∧
      (pipelineCheck d dt v ts now).baseline_std_sq = s.var ∧
      (check_and_track_anomaly d dt v ts now).1.1 =
        (pipelineCheck d dt v ts now).detected := by
  have hlook : List.lookup dt (add_reading d dt v ts now).stats =
      some (recalcStats (pruneOld d.windowSecs now
        (appendBounded 1000 ((List.lookup dt d.stats).getD { readings := [] }).readings
          (ts, v)))) := lookup_dictInsert_self ..
  refine ⟨_, hlook, ?_, ?_, ?_, ?_, rfl⟩
  · rw [recalcStats_readings]
    apply getLast?_dropWhile_of_not
    · exact getLast?_appendBounded 1000 (by norm_num) ..
    · simp only [decide_eq_false_iff_not, not_lt]
      omega
  · rw [recalcStats_count, recalcStats_readings]
  · exact (check_anomaly_baseline_fields _ dt v ts _ hlook).1
  · exact (check_anomaly_baseline_fields _ dt v ts _ hlook).2

/-- C3 amended witness: a fresh detector, heart_rate 80 at time 0 — the
post-add stats hold exactly the new sample, and the check reports them. -/
theorem pipeline_baseline_includes_new_value_witness :
    ∃ s, List.lookup "heart_rate" (add_reading AnomalyDetector.init "heart_rate" 80 0 0).stats
        = some s ∧
      s.readings.getLast? = some (0, 80) ∧
      s.count = s.readings.length ∧
      (pipelineCheck AnomalyDetector.init "heart_rate" 80 0 0).baseline_mean = s.mean ∧
      (pipelineCheck AnomalyDetector.init "heart_rate" 80 0 0).baseline_std_sq = s.var ∧
      (check_and_track_anomaly AnomalyDetector.init "heart_rate" 80 0 0).1.1 =
        (pipelineCheck AnomalyDetector.init "heart_rate" 80 0 0).detected :=
  pipeline_baseline_includes_new_value AnomalyDetector.init "heart_rate" 80 0 0
    (by norm_num [AnomalyDetector.init])

/-! ### C4: the achieved event fires exactly once per goal per day -/

/-- The only event `update_progress` can return is an `achieved` event. -/
theorem update_progress_event_type (t : GoalTracker) (dt : String) (v : ℚ)
    (cum : Bool) (ts today : ℤ) :
    ∀ e, (update_progress t dt v cum ts today).1 = some e →
      e.event_type = "achieved" := by
  intro e he
  simp only [update_progress] at he
  split at he
  · simp at he
  split at he
  · simp at he
  · simp only [ite_self] at he
    repeat' split at he
    all_goals
      first
        | (injection he with h; rw [← h]; rfl)
        | simp at he

theorem update_progress_step (t : GoalTracker) (dt : String) (v : ℚ) (ts today : ℤ)
    (g : GoalDefinition) (p : GoalProgress)
    (hdate : t.current_date = some today)
    (hg : List.lookup dt t.goals = some g)
    (hp : List.lookup dt t.progress = some p) :
    (update_progress t dt v true ts today).1.isSome =
      (decide (p.goal.target ≤ v) && !p.notified_achieved) ∧
    (update_progress t dt v true ts today).2.current_date = some today ∧
    (update_progress t dt v true ts today).2.goals = t.goals ∧
    ∃ p2, List.lookup dt (update_progress t dt v true ts today).2.progress = some p2 ∧
      p2.goal = p.goal ∧
      p2.notified_achieved = (p.notified_achieved || decide (p.goal.target ≤ v)) := by
  have hens := ensureDay_of_date hdate
  refine ⟨?_, ?_, ?_, ?_⟩
  · by_cases hv : p.goal.target ≤ v
    · by_cases hn : p.notified_achieved = true
      · simp [update_progress, hens, hg, hp, hv, hn]
      · simp [update_progress, hens, hg, hp, hv, hn]
    · by_cases h0 : 0 < v
      · simp [update_progress, hens, hg, hp, hv, h0]
      · simp [update_progress, hens, hg, hp, hv, h0]
  · simp [update_progress, hens, hg, hp, hdate]
  · simp [update_progress, hens, hg, hp]
  · simp only [update_progress, hens, hg, hp]
    refine ⟨_, lookup_dictInsert_self _ _ _, rfl, ?_⟩
    by_cases hv : p.goal.target ≤ v
    · by_cases hn : p.notified_achieved = true
      · simp [hv, hn]
      · simp [hv, hn]
    · by_cases h0 : 0 < v
      · simp [hv, h0]
      · simp [hv, h0]

/-- Every event a `runUpdates` sequence returns is an `achieved` event. -/
theorem runUpdates_event_type (dt : String) (today : ℤ) :
    ∀ (us : List (ℚ × ℤ)) (t : GoalTracker) (i : ℕ) (e : GoalEvent),
      (runUpdates dt today t us).1.get? i = some (some e) →
      e.event_type = "achieved" := by
  intro us
  induction us with
  | nil =>
    intro t i e h
    simp [runUpdates] at h
  | cons u rest ih =>
    intro t i e h
    obtain ⟨v0, ts0⟩ := u
    cases i with
    | zero =>
      simp only [runUpdates, List.get?_cons_zero, Option.some.injEq] at h
      exact update_progress_event_type t dt v0 true ts0 today e h
    | succ i2 =>
      simp only [runUpdates, List.get?_cons_succ] at h
      exact ih _ _ _ h

theorem runUpdates_length (dt : String) (today : ℤ) :
    ∀ (us : List (ℚ × ℤ)) (t : GoalTracker),
      (runUpdates dt today t us).1.length = us.length := by
  intro us
  induction us with
  | nil => intro t; rfl
  | cons u rest ih =>
    intro t
    obtain ⟨v0, ts0⟩ := u
    simp [runUpdates, ih]

/-- Core invariant of the per-day achievement notification: the i-th call of
a same-day update sequence produces an event iff its value reaches the target,
the goal had not been notified before the sequence, and no earlier call in the
sequence reached the target. -/
theorem runUpdates_spec (dt : String) (today : ℤ) (g : GoalDefinition) :
    ∀ (us : List (ℚ × ℤ)) (t : GoalTracker) (p : GoalProgress),
      t.current_date = some today →
      List.lookup dt t.goals = some g →
      List.lookup dt t.progress = some p →
      p.goal = g →
      ∀ i v ts, us.get? i = some (v, ts) →
        ((∃ e, (runUpdates dt today t us).1.get? i = some (some e)) ↔
          (g.target ≤ v ∧ p.notified_achieved = false ∧
           ∀ j v2 ts2, j < i → us.get? j = some (v2, ts2) → v2 < g.target)) := by
  intro us
  induction us with
  | nil =>
    intro t p _ _ _ _ i v ts hi
    simp at hi
  | cons u rest ih =>
    obtain ⟨v0, ts0⟩ := u
    intro t p hdate hg hp hpg i v ts hi
    subst hpg
    obtain ⟨hsome, hdate2, hgoals2, p2, hp2, hp2g, hp2n⟩ :=
      update_progress_step t dt v0 ts0 today p.goal p hdate hg hp
    cases i with
    | zero =>
      simp only [List.get?_cons_zero, Option.some.injEq, Prod.mk.injEq] at hi
      obtain ⟨rfl, rfl⟩ := hi
      constructor
      · rintro ⟨e, he⟩
        simp only [runUpdates, List.get?_cons_zero, Option.some.injEq] at he
        have hs : (update_progress t dt v0 true ts0 today).1.isSome = true := by
          rw [he]; rfl
        rw [hsome] at hs
        simp only [Bool.and_eq_true, decide_eq_true_eq, Bool.not_eq_true'] at hs
        exact ⟨hs.1, hs.2, fun j v2 ts2 hj => absurd hj (Nat.not_lt_zero j)⟩
      · rintro ⟨hv, hn, -⟩
        have hs : (update_progress t dt v0 true ts0 today).1.isSome = true := by
          rw [hsome]
          simp [hv, hn]
        obtain ⟨e, he⟩ := Option.isSome_iff_exists.mp hs
        refine ⟨e, ?_⟩
        simp only [runUpdates, List.get?_cons_zero, Option.some.injEq]
        exact he
    | succ i2 =>
      simp only [List.get?_cons_succ] at hi
      have hg2 : List.lookup dt (update_progress t dt v0 true ts0 today).2.goals =
          some p.goal := by rw [hgoals2]; exact hg
      have ihr := ih (update_progress t dt v0 true ts0 today).2 p2 hdate2 hg2 hp2
        hp2g i2 v ts hi
      have houts : (runUpdates dt today t ((v0, ts0) :: rest)).1.get? (i2 + 1) =
          (runUpdates dt today (update_progress t dt v0 true ts0 today).2 rest).1.get? i2 := by
        simp only [runUpdates, List.get?_cons_succ]
      rw [houts, ihr, hp2n]
      constructor
      · rintro ⟨hv, hn, hall⟩
        simp only [Bool.or_eq_false_iff, decide_eq_false_iff_not, not_le] at hn
        refine ⟨hv, hn.1, ?_⟩
        intro j v2 ts2 hj hjget
        cases j with
        | zero =>
          simp only [List.get?_cons_zero, Option.some.injEq, Prod.mk.injEq] at hjget
          rw [← hjget.1]
          exact hn.2
        | succ j2 =>
          simp only [List.get?_cons_succ] at hjget
          exact hall j2 v2 ts2 (by omega) hjget
      · rintro ⟨hv, hn, hall⟩
        have hv0 : v0 < p.goal.target := hall 0 v0 ts0 (by omega) rfl
        refine ⟨hv, ?_, ?_⟩
        · simp [hn, not_le.mpr hv0]
        · intro j v2 ts2 hj hjget
          exact hall (j + 1) v2 ts2 (by omega) (by simpa using hjget)

theorem lookup_map_progress (dt : String) (l : List (String × GoalDefinition)) :
    List.lookup dt (l.map (fun kg => (kg.1, ({ goal := kg.2 } : GoalProgress)))) =
      (List.lookup dt l).map (fun g => ({ goal := g } : GoalProgress)) := by
  induction l with
  | nil => rfl
  | cons kg rest ih =>
    obtain ⟨k, gd⟩ := kg
    by_cases h : dt == k
    · simp [List.lookup, h]
    · simp only [List.map_cons, List.lookup, h]
      exact ih

theorem goalTracker_init_spec (gs : List GoalDefinition) (today : ℤ) :
    (GoalTracker.init gs today).current_date = some today ∧
    (GoalTracker.init gs today).progress =
      (GoalTracker.init gs today).goals.map (fun kg => (kg.1, { goal := kg.2 })) := by
  simp [GoalTracker.init, ensureDay]

/-- C4.  For every configured goal and every same-day sequence of
`update_progress` calls on a fresh day, the i-th call returns an event iff
its value reaches the target and no earlier call did (so the `achieved` event
is returned exactly once, at the first call whose value reaches the target,
and every other call — including all subsequent ones that day — returns
`None`); every returned event is an `achieved` event.  Equivalently
`notified_achieved` transitions false→true at most once per goal per day. -/
theorem goal_achieved_once (gs : List GoalDefinition) (dt : String)
    (g : GoalDefinition) (today : ℤ) (us : List (ℚ × ℤ))
    (hg : List.lookup dt (GoalTracker.init gs today).goals = some g) :
    ∀ i v ts, us.get? i = some (v, ts) →
      (∀ e, (runUpdates dt today (GoalTracker.init gs today) us).1.get? i =
          some (some e) → e.event_type = "achieved") ∧
      ((∃ e, (runUpdates dt today (GoalTracker.init gs today) us).1.get? i =
          some (some e)) ↔
        (g.target ≤ v ∧
         ∀ j v2 ts2, j < i → us.get? j = some (v2, ts2) → v2 < g.target)) := by
  obtain ⟨hd, hprog⟩ := goalTracker_init_spec gs today
  have hp : List.lookup dt (GoalTracker.init gs today).progress =
      some { goal := g } := by
    rw [hprog, lookup_map_progress, hg]
    rfl
  intro i v ts hi
  have key := runUpdates_spec dt today g us (GoalTracker.init gs today)
    { goal := g } hd hg hp rfl i v ts hi
  refine ⟨fun e he => runUpdates_event_type dt today us _ i e he, ?_⟩
  rw [key]
  constructor
  · rintro ⟨hv, -, hall⟩
    exact ⟨hv, hall⟩
  · rintro ⟨hv, hall⟩
    exact ⟨hv, rfl, hall⟩

/-- C4 witness: on the default goals, updates [10500, 11000] for steps return
an `achieved` event at the first call and `None` at the second. -/
theorem goal_achieved_once_witness :
    (∃ e, (runUpdates "steps" 0 (GoalTracker.init DEFAULT_GOALS 0)
        [(10500, 0), (11000, 1)]).1.get? 0 = some (some e) ∧
        e.event_type = "achieved") ∧
    (runUpdates "steps" 0 (GoalTracker.init DEFAULT_GOALS 0)
        [(10500, 0), (11000, 1)]).1.get? 1 = some none := by
  have hgex : ∃ g, List.lookup "steps" (GoalTracker.init DEFAULT_GOALS 0).goals =
      some g ∧ g.target = 10000 := ⟨_, rfl, rfl⟩
  obtain ⟨g, hg, ht⟩ := hgex
  have h0 := goal_achieved_once DEFAULT_GOALS "steps" g 0 [(10500, 0), (11000, 1)]
    hg 0 10500 0 rfl
  have h1 := goal_achieved_once DEFAULT_GOALS "steps" g 0 [(10500, 0), (11000, 1)]
    hg 1 11000 1 rfl
  constructor
  · obtain ⟨e, he⟩ := h0.2.mpr
      ⟨by rw [ht]; norm_num, fun j v2 ts2 hj => absurd hj (Nat.not_lt_zero j)⟩
    exact ⟨e, he, h0.1 e he⟩
  · have hno : ¬ ∃ e, (runUpdates "steps" 0 (GoalTracker.init DEFAULT_GOALS 0)
        [(10500, 0), (11000, 1)]).1.get? 1 = some (some e) := by
      rw [h1.2]
      rintro ⟨-, hall⟩
      have h10500 := hall 0 10500 0 (by omega) rfl
      rw [ht] at h10500
      norm_num at h10500
    rcases ho : (runUpdates "steps" 0 (GoalTracker.init DEFAULT_GOALS 0)
        [(10500, 0), (11000, 1)]).1.get? 1 with _ | o
    · exfalso
      have hlen := runUpdates_length "steps" 0 [(10500, 0), (11000, 1)]
        (GoalTracker.init DEFAULT_GOALS 0)
      have := List.get?_eq_none.mp ho
      rw [hlen] at this
      simp at this
    · cases o with
      | none => rfl
      | some e => exact absurd ⟨e, ho⟩ hno

end HealthDemo
